import Mathlib

/-!
Verification of the arbitrage-scanner core (arbitrage.py, pool_prices.py,
pool_fetchers.py, fees.py, main.py) against its specification.

Conventions of the embedding:
* Python floats are modelled as exact real numbers (`ℝ`) for the cost-model /
  evaluator code, and as exact rationals (`ℚ`) for the timestamp-based anti-spam
  and cache code (whose arithmetic is plain sums, differences and comparisons
  of times and liquidity).
* Python `dict`s keyed by strings are modelled either as functions
  `String → Option _` (the anti-spam maps, the cache) or as ordered association
  lists with unique keys (the `dex → price` maps).
* A missing optional value (`None`) is `Option.none`; Python truthiness tests
  (`if not price`, `if fee_bps:`) are modelled by the corresponding
  `= 0` / `= ""` / `Option.isNone` tests.
* `compute_spread_and_metrics` takes the fetched-and-normalized pool list as an
  argument in place of the aiohttp session (the fetch is I/O glue).
-/

namespace Abrsol

/-! ### main.py — anti-spam deduplicator

`_recent_opportunities : Dict[str, float]`, `_recent_tokens : Dict[str, float]`
are modelled as two partial maps from strings to rational timestamps. -/

/-- `OPPORTUNITY_COOLDOWN = 15 * 60` (main.py). -/
def OPPORTUNITY_COOLDOWN : ℚ := 15 * 60

/-- `TOKEN_COOLDOWN = 5 * 60` (main.py). -/
def TOKEN_COOLDOWN : ℚ := 5 * 60

/-- The two module-level anti-spam maps of main.py. -/
structure AntiSpamState where
  recentOpportunities : String → Option ℚ
  recentTokens : String → Option ℚ

/-- The initial (empty) state of both maps. -/
def emptyAntiSpam : AntiSpamState :=
  { recentOpportunities := fun _ => none, recentTokens := fun _ => none }

/-- `should_send_notification(token, opportunity_hash)` (main.py lines 61-81),
with the module state and `time.time()` passed explicitly. -/
def should_send_notification (s : AntiSpamState) (token opportunity_hash : String)
    (current_time : ℚ) : Bool :=
  let oppBlocked : Bool :=
    match s.recentOpportunities opportunity_hash with
    | some last_sent => decide (current_time - last_sent < OPPORTUNITY_COOLDOWN)
    | none => false
  let tokenBlocked : Bool :=
    match s.recentTokens token with
    | some last_sent => decide (current_time - last_sent < TOKEN_COOLDOWN)
    | none => false
  if oppBlocked then false
  else if tokenBlocked then false
  else true

/-- The purge inside `record_notification`: keep entries with value
`v > cleanup_threshold` (the dict comprehension of main.py lines 92-99). -/
def purgeOld (m : String → Option ℚ) (cleanup_threshold : ℚ) : String → Option ℚ :=
  fun k => match m k with
  | some v => if cleanup_threshold < v then some v else none
  | none => none

/-- `record_notification(token, opportunity_hash)` (main.py lines 83-99): stamp
both maps at `current_time`, then purge entries older than one hour. -/
def record_notification (s : AntiSpamState) (token opportunity_hash : String)
    (current_time : ℚ) : AntiSpamState :=
  let stamped : AntiSpamState :=
    { recentOpportunities := fun k =>
        if k = opportunity_hash then some current_time else s.recentOpportunities k,
      recentTokens := fun k =>
        if k = token then some current_time else s.recentTokens k }
  { recentOpportunities := purgeOld stamped.recentOpportunities (current_time - 3600),
    recentTokens := purgeOld stamped.recentTokens (current_time - 3600) }

/-! ### pool_fetchers.py — smart cache with dynamic TTL -/

/-- One entry of `_smart_cache`: `{"data": [...], "timestamp": float, "ttl": int}`. -/
structure CacheEntry (α : Type) where
  data : List α
  timestamp : ℚ
  ttl : ℤ

/-- `_smart_cache`, keyed by the `f"{chain}_{dex}_{token}"` string. -/
def SmartCache (α : Type) : Type := String → Option (CacheEntry α)

/-- `_get_dynamic_ttl(liquidity_usd)` (pool_fetchers.py lines 69-81). -/
def _get_dynamic_ttl (liquidity_usd : ℚ) : ℤ :=
  if 500000 ≤ liquidity_usd then 15
  else if 50000 ≤ liquidity_usd then 30
  else 60

/-- `_get_cached_data(cache_key)` (pool_fetchers.py lines 84-99), as the value
read from the state (the source also deletes the expired entry; only the
returned value is modelled). -/
def _get_cached_data {α : Type} (cache : SmartCache α) (cache_key : String)
    (current_time : ℚ) : Option (List α) :=
  match cache cache_key with
  | none => none
  | some entry =>
      if current_time - entry.timestamp < (entry.ttl : ℚ) then some entry.data
      else none

/-- `_set_cached_data(cache_key, data, avg_liquidity)` (pool_fetchers.py
lines 102-110). -/
def _set_cached_data {α : Type} (cache : SmartCache α) (cache_key : String)
    (data : List α) (avg_liquidity : ℚ) (now : ℚ) : SmartCache α :=
  fun k => if k = cache_key then
      some { data := data, timestamp := now, ttl := _get_dynamic_ttl avg_liquidity }
    else cache k

/-! ### arbitrage.py / fees.py / pool_prices.py — the evaluator core

Floats are exact reals.  Conditions on reals are classically decidable, so the
definitions below are noncomputable; their branch structure follows the source
line by line. -/

noncomputable section Evaluator
open Classical

/-- `MAJOR_TOKENS` (arbitrage.py lines 81-87). -/
def MAJOR_TOKENS : List String :=
  ["So11111111111111111111111111111111111111112",
   "EPjFWdd5AufqSSqeM2qN1xzybapC8G4wEGGkZwyTDt1v",
   "Es9vMFrzaCERmJfrF4H2FYD4KCoNkY11McCe8BenwNYB",
   "mSoLzYCxHdYgdzU16g5QSh3i5K3z3KZK7ytfqcJm7So",
   "7dHbWXmci3dT8UFYWYZweBLXgycu7Y3iL6trKn1Y7ARj"]

/-- `MEDIUM_TOKENS` (arbitrage.py lines 90-96). -/
def MEDIUM_TOKENS : List String :=
  ["DezXAZ8z7PnrnRJjz3wXBoRgixCa6xjnB7YaB1pPB263",
   "EKpQGSJtjMFqKZ9KQanSqYXRcF8fBopzLHYxdM65zcjm",
   "HZ1JovNiVvGrGNiiYvEozEVgZ58xaU3RKwX8eACQBCt3",
   "JUPyiwrYJFskUPiHa7hkeR8VUtAeFoSYbKedZNsDvCN",
   "4k3Dyjzvzp8eMZWUXbBCjEvwSkkk59S5iCNLY3QrkX6R"]

/-- `MIN_SPREAD_AFTER_FEES` (config.py, default `0.0025`). -/
def MIN_SPREAD_AFTER_FEES : ℝ := 0.0025

/-- `SOLANA_TOTAL_FEE_LAMPORTS = 5000 + 10000` (fees.py). -/
def SOLANA_TOTAL_FEE_LAMPORTS : ℝ := 5000 + 10000

/-- `SOL_PRICE_USD` fallback constant (fees.py). -/
def SOL_PRICE_USD : ℝ := 150

/-- `BASE_GAS_PER_SWAP` (fees.py). -/
def BASE_GAS_PER_SWAP : ℝ := 150000

/-- `BASE_GAS_PRICE_GWEI` (fees.py). -/
def BASE_GAS_PRICE_GWEI : ℝ := 20

/-- `ETH_PRICE_USD` fallback constant (fees.py). -/
def ETH_PRICE_USD : ℝ := 2500

/-- `estimate_solana_network_fee(swap_size_usd)` (fees.py).  A zero swap size
raises `ZeroDivisionError`, which the `except` branch turns into the
default `0.0004`. -/
def estimate_solana_network_fee (swap_size_usd : ℝ) : ℝ :=
  if swap_size_usd = 0 then 0.0004
  else min (SOLANA_TOTAL_FEE_LAMPORTS / 1000000000 * SOL_PRICE_USD / swap_size_usd) 0.001

/-- `estimate_base_network_fee(swap_size_usd)` (fees.py), with the same
division-by-zero-to-default behaviour. -/
def estimate_base_network_fee (swap_size_usd : ℝ) : ℝ :=
  if swap_size_usd = 0 then 0.001
  else min (BASE_GAS_PER_SWAP * BASE_GAS_PRICE_GWEI * (1 / 1000000000) * ETH_PRICE_USD
      / swap_size_usd) 0.005

/-- `estimate_network_fee(chain, swap_size_usd)` (fees.py).  `chain.lower()`
is modelled as the identity: every call site passes the lowercase chain tag
(`"solana"`/`"base"`). -/
def estimate_network_fee (chain : String) (swap_size_usd : ℝ) : ℝ :=
  if chain = "solana" then estimate_solana_network_fee swap_size_usd
  else if chain = "base" then estimate_base_network_fee swap_size_usd
  else estimate_solana_network_fee swap_size_usd

/-- `estimate_slippage(token_mint, liquidity_usd, swap_size_usd, fee_bps,
price_coherence, pool_count)` (arbitrage.py lines 103-181).  The optional
`fee_bps=None` behaves like `fee_bps=0` (both skip the fee-tier adjustment),
so `fee_bps` is a plain integer here. -/
def estimate_slippage (token_mint : String) (liquidity_usd : ℝ)
    (swap_size_usd : ℝ) (fee_bps : ℤ) (price_coherence : ℝ) (pool_count : ℕ) : ℝ :=
  let base_slippage : ℝ :=
    if token_mint ∈ MAJOR_TOKENS then 0.0005
    else if token_mint ∈ MEDIUM_TOKENS then 0.0020
    else 0.0040
  let base_slippage := base_slippage * max 0.5 (2.0 - price_coherence)
  let base_slippage := base_slippage * max 1.0 (2.0 - (pool_count : ℝ) * 0.2)
  let liq_multiplier : ℝ :=
    if 1000000 ≤ liquidity_usd then 0.5
    else if 500000 ≤ liquidity_usd then 0.75
    else if 100000 ≤ liquidity_usd then 1.0
    else if 50000 ≤ liquidity_usd then 1.25
    else if 10000 ≤ liquidity_usd then 1.5
    else 2.0
  let size_multiplier : ℝ :=
    if 0 < liquidity_usd then
      1 + min (swap_size_usd / liquidity_usd) 0.1 ^ (0.7 : ℝ) * 2.0
    else 2.0
  let fee_multiplier : ℝ :=
    if fee_bps = 0 then 1.0
    else if 300 ≤ fee_bps then 1.2
    else if 100 ≤ fee_bps then 1.0
    else 0.9
  min (max (base_slippage * liq_multiplier * size_multiplier * fee_multiplier) 0.0005) 0.015

/-- `estimate_price_impact(liquidity_usd, swap_size_usd)` (arbitrage.py
lines 188-215). -/
def estimate_price_impact (liquidity_usd : ℝ) (swap_size_usd : ℝ) : ℝ :=
  let base_impact : ℝ :=
    if 1000000 ≤ liquidity_usd then 0.0005
    else if 200000 ≤ liquidity_usd then 0.0010
    else if 20000 ≤ liquidity_usd then 0.0020
    else 0.0050
  let size_multiplier : ℝ := (swap_size_usd / 1000) ^ (0.5 : ℝ)
  min (max (base_impact * size_multiplier) 0.0005) 0.02

/-- `calculate_price_coherence(prices)` (arbitrage.py lines 222-250);
`prices` is a dict `dex → price`, modelled as an association list with
unique keys. -/
def calculate_price_coherence (prices : List (String × ℝ)) : ℝ :=
  if prices.length < 2 then 0
  else
    let price_values := prices.map Prod.snd
    let avg_price := price_values.sum / (price_values.length : ℝ)
    if avg_price = 0 then 0
    else
      let variance :=
        (price_values.map (fun p => (p - avg_price) ^ (2 : ℕ))).sum / (price_values.length : ℝ)
      let std_dev := variance ^ (0.5 : ℝ)
      let cv := std_dev / avg_price
      min (max 0 (1 - cv * 10)) 1

/-- `assess_volatility_risk(spread_brut, price_coherence)` (arbitrage.py
lines 257-274). -/
def assess_volatility_risk (spread_brut : ℝ) (price_coherence : ℝ) : ℝ :=
  let spread_risk := min (spread_brut * 10) 1.0
  let coherence_risk := 1 - price_coherence
  min (max (spread_risk * 0.4 + coherence_risk * 0.6) 0) 1.0

/-- `calculate_confidence_score(prices, liquidity_usd, volume_24h,
spread_brut)` (arbitrage.py lines 281-342).  Python `int()` truncates toward
zero; the clamped total is nonnegative, so truncation is `Int.floor`. -/
def calculate_confidence_score (prices : List (String × ℝ)) (liquidity_usd : ℝ)
    (volume_24h : ℝ) (spread_brut : ℝ) : ℤ :=
  let dex_count := prices.length
  let price_coherence := calculate_price_coherence prices
  let coherence_score := price_coherence * 30
  let liq_score : ℝ :=
    if 500000 ≤ liquidity_usd then 30
    else if 100000 ≤ liquidity_usd then 25
    else if 50000 ≤ liquidity_usd then 20
    else if 10000 ≤ liquidity_usd then 10
    else 5
  let volatility_score := (1 - assess_volatility_risk spread_brut price_coherence) * 20
  let dex_score : ℝ :=
    if 4 ≤ dex_count then 10
    else if 3 ≤ dex_count then 7
    else if 2 ≤ dex_count then 4
    else 0
  let volume_score : ℝ :=
    if 1000000 ≤ volume_24h then 10
    else if 100000 ≤ volume_24h then 7
    else if 10000 ≤ volume_24h then 4
    else 2
  let total := coherence_score + liq_score + volatility_score + dex_score + volume_score
  ⌊min (max total 0) 100⌋

/-- The result dict of `assess_mev_risk` (arbitrage.py lines 393-398). -/
structure MevAssessment where
  risk_level : String
  slippage_buffer : ℝ
  should_reject : Bool
  reason : Option String

/-- `assess_mev_risk(token_mint, liquidity_usd, spread_brut)` (arbitrage.py
lines 349-398): the `elif` chain, then the unconditional major-token
override. -/
def assess_mev_risk (token_mint : String) (liquidity_usd : ℝ) (spread_brut : ℝ) :
    MevAssessment :=
  let r : MevAssessment :=
    if 0.05 < spread_brut ∧ liquidity_usd < 50000 then
      { risk_level := "high", slippage_buffer := 0.005, should_reject := true,
        reason := some "High spread with low liquidity - likely MEV bait" }
    else if liquidity_usd < 10000 then
      { risk_level := "high", slippage_buffer := 0.005, should_reject := true,
        reason := some "Liquidity too low - high manipulation risk" }
    else if liquidity_usd < 50000 ∨ 0.03 < spread_brut then
      { risk_level := "medium", slippage_buffer := 0.002, should_reject := false,
        reason := none }
    else
      { risk_level := "low", slippage_buffer := 0, should_reject := false, reason := none }
  if token_mint ∈ MAJOR_TOKENS then
    { risk_level := "low", slippage_buffer := 0, should_reject := false, reason := none }
  else r

end Evaluator

/-! #### pool_prices.py — normalizer -/

/-- `get_pool_url(dex, pool_id, chain)` (pool_prices.py lines 20-72): the
per-(chain, dex) template table with the blockchain-explorer fallback.
(The pancakeswap/kyberswap templates contain no `pool_id` placeholder, so
`.format` leaves them unchanged.) -/
def get_pool_url (dex : String) (pool_id : String) (chain : String := "solana") : String :=
  let dex_lower := dex.toLower
  let chain_lower := chain.toLower
  if chain_lower = "solana" then
    if dex_lower = "raydium" then "https://raydium.io/pool/" ++ pool_id
    else if dex_lower = "orca" then "https://www.orca.so/whirlpools/" ++ pool_id
    else if dex_lower = "meteora" then "https://app.meteora.ag/pool/" ++ pool_id
    else if dex_lower = "lifinity" then "https://app.lifinity.io/pool/" ++ pool_id
    else if dex_lower = "phoenix" then "https://app.phoenix.trade/market/" ++ pool_id
    else "https://explorer.solana.com/address/" ++ pool_id
  else if chain_lower = "base" then
    if dex_lower = "uniswap" then "https://app.uniswap.org/explore/pools/base/" ++ pool_id
    else if dex_lower = "aerodrome" then "https://aerodrome.finance/pools/" ++ pool_id
    else if dex_lower = "pancakeswap" then "https://pancakeswap.finance/add?chain=base"
    else if dex_lower = "kyberswap" then "https://kyberswap.com/swap/base"
    else "https://basescan.org/address/" ++ pool_id
  else "https://explorer.solana.com/address/" ++ pool_id

/-- A raw pool record as produced by the pool fetchers (spec §3, consumed by
`normalize_price_for_token`).  `price` is optional; an absent string key is
the empty string. -/
structure RawPool where
  pool_id : String
  dex : String
  token_a : String
  token_b : String
  price : Option ℝ
  fee_pct : ℝ
  fee_bps : ℤ
  liquidity_usd : ℝ
  pool_type : String

/-- A normalized pool, the dict returned by `normalize_price_for_token`
(pool_prices.py lines 129-139).  `chain`/`token` keys are added later by
`fetch_solana_pools`/`fetch_base_pools` (pool_fetchers.py lines 664-666);
the empty string models the key being absent. -/
structure NPool where
  pool_id : String
  dex : String
  buy_price : ℝ
  sell_price : ℝ
  fee_pct : ℝ
  fee_bps : ℤ
  liquidity_usd : ℝ
  url : String
  pool_type : String
  chain : String

noncomputable section Evaluator2
open Classical

/-- The orientation cases of `normalize_price_for_token` (pool_prices.py
lines 109-124): `(buy_price, sell_price)` when the pool pairs the token with
the base mint in either direction, nothing otherwise. -/
def orientedPrices (pool : RawPool) (token_mint base_mint : String) (price : ℝ) :
    Option (ℝ × ℝ) :=
  if pool.token_a = token_mint ∧ pool.token_b = base_mint then
    some (1 / price, price)
  else if pool.token_a = base_mint ∧ pool.token_b = token_mint then
    some (price, 1 / price)
  else none

/-- `normalize_price_for_token(pool, token_mint, base_mint)` (pool_prices.py
lines 79-139).  `if not price or not token_a or not token_b` is the Python
truthiness test: price absent or zero, or an empty token string. -/
def normalize_price_for_token (pool : RawPool) (token_mint : String)
    (base_mint : String) : Option NPool :=
  match pool.price with
  | none => none
  | some price =>
    if price = 0 ∨ pool.token_a = "" ∨ pool.token_b = "" then none
    else
      match orientedPrices pool token_mint base_mint price with
      | none => none
      | some (buy_price, sell_price) =>
        if buy_price ≤ 0 ∨ sell_price ≤ 0 then none
        else some
          { pool_id := pool.pool_id
            dex := pool.dex
            buy_price := buy_price
            sell_price := sell_price
            fee_pct := pool.fee_pct
            fee_bps := pool.fee_bps
            liquidity_usd := pool.liquidity_usd
            url := get_pool_url pool.dex pool.pool_id
            pool_type := pool.pool_type
            chain := "" }

/-- `filter_pools_by_liquidity(pools, min_liquidity_usd)` (pool_prices.py
lines 199-207). -/
def filter_pools_by_liquidity (pools : List NPool) (min_liquidity_usd : ℝ) : List NPool :=
  pools.filter (fun p => min_liquidity_usd ≤ p.liquidity_usd)

/-- Insert into a sorted list, after any element it compares equal to. -/
def insertRespecting {α : Type} (le : α → α → Prop) : α → List α → List α
  | x, [] => [x]
  | x, y :: ys => if le x y then x :: y :: ys else y :: insertRespecting le x ys

/-- Stable insertion sort: extensionally equal to Python's stable `sorted`
for the same (total, reflexive) key comparison. -/
def stableSortBy {α : Type} (le : α → α → Prop) : List α → List α
  | [] => []
  | x :: xs => insertRespecting le x (stableSortBy le xs)

/-- `sort_pools_by_buy_price(pools)` (pool_prices.py lines 214-216):
stable ascending sort on `buy_price`. -/
def sort_pools_by_buy_price (pools : List NPool) : List NPool :=
  stableSortBy (fun a b => a.buy_price ≤ b.buy_price) pools

/-- `sort_pools_by_sell_price(pools)` (pool_prices.py lines 219-221):
stable descending sort on `sell_price`. -/
def sort_pools_by_sell_price (pools : List NPool) : List NPool :=
  stableSortBy (fun a b => b.sell_price ≤ a.sell_price) pools

/-! #### arbitrage.py — deep evaluator `compute_spread_and_metrics` -/

/-- The `{p.get("dex"): p.get("buy_price") for p in pools if p.get("buy_price")}`
dict comprehension (arbitrage.py line 500): later pools overwrite earlier
entries with the same dex, keys stay unique, insertion order is kept. -/
def poolPricesDict (pools : List NPool) : List (String × ℝ) :=
  pools.foldl (fun m p =>
    if p.buy_price = 0 then m
    else if m.any (fun kv => kv.1 = p.dex) then
      m.map (fun kv => if kv.1 = p.dex then (p.dex, p.buy_price) else kv)
    else m ++ [(p.dex, p.buy_price)]) []

/-- `set(p.get("dex") for p in pools)` (arbitrage.py lines 457, 664), as the
deduplicated list of dex tags. -/
def dexSet (pools : List NPool) : List String :=
  (pools.map (fun p => p.dex)).dedup

/-- Best-pool selection (arbitrage.py lines 465-479): cheapest buy pool,
highest sell pool, and the second-best sell pool when the same pool wins both
(requiring at least 3 pools).  The final `none` arm is unreachable for the
lists the caller passes (length at least 3 there). -/
def chooseBuySell (pools : List NPool) : Option (NPool × NPool) :=
  match sort_pools_by_buy_price pools, sort_pools_by_sell_price pools with
  | buy_pool :: _, sell_pool :: rest =>
    if buy_pool.pool_id = sell_pool.pool_id then
      if pools.length < 3 then none
      else
        match rest with
        | sell2 :: _ => some (buy_pool, sell2)
        | [] => none
    else some (buy_pool, sell_pool)
  | _, _ => none

/-- `spread_brut = (sell_price - buy_price) / buy_price` for the selected
legs (arbitrage.py line 497). -/
def spreadBrutOf (buy_pool sell_pool : NPool) : ℝ :=
  (sell_pool.sell_price - buy_pool.buy_price) / buy_pool.buy_price

/-- `avg_pool_liq = (buy_pool_liq + sell_pool_liq) / 2` (arbitrage.py
line 550). -/
def avgPoolLiq (buy_pool sell_pool : NPool) : ℝ :=
  (buy_pool.liquidity_usd + sell_pool.liquidity_usd) / 2

/-- `total_slippage = buy_slippage + sell_slippage + slippage_buffer`
(arbitrage.py lines 563-583). -/
def totalSlippageOf (token_mint : String) (swap_size_usd : ℝ) (pools : List NPool)
    (buy_pool sell_pool : NPool) : ℝ :=
  let price_coherence := calculate_price_coherence (poolPricesDict pools)
  estimate_slippage token_mint buy_pool.liquidity_usd swap_size_usd buy_pool.fee_bps
      price_coherence pools.length
    + estimate_slippage token_mint sell_pool.liquidity_usd swap_size_usd sell_pool.fee_bps
      price_coherence pools.length
    + (assess_mev_risk token_mint (avgPoolLiq buy_pool sell_pool)
        (spreadBrutOf buy_pool sell_pool)).slippage_buffer

/-- `total_costs = total_dex_fees + network_fee + total_slippage +
price_impact` (arbitrage.py line 589). -/
def totalCostsOf (token_mint : String) (swap_size_usd : ℝ) (pools : List NPool)
    (buy_pool sell_pool : NPool) : ℝ :=
  buy_pool.fee_pct + sell_pool.fee_pct
    + estimate_network_fee "solana" swap_size_usd
    + totalSlippageOf token_mint swap_size_usd pools buy_pool sell_pool
    + estimate_price_impact (avgPoolLiq buy_pool sell_pool) swap_size_usd

/-- `spread_net = spread_brut - total_costs` (arbitrage.py line 595). -/
def spreadNetOf (token_mint : String) (swap_size_usd : ℝ) (pools : List NPool)
    (buy_pool sell_pool : NPool) : ℝ :=
  spreadBrutOf buy_pool sell_pool - totalCostsOf token_mint swap_size_usd pools buy_pool sell_pool

/-- The opportunity dict built by `compute_spread_and_metrics` (arbitrage.py
lines 645-714); the fields the claims touch, plus the main payload. -/
structure Opportunity where
  token : String
  base : String
  buy_dex : String
  sell_dex : String
  buy_pool_id : String
  sell_pool_id : String
  buy_pool_url : String
  sell_pool_url : String
  buy_price : ℝ
  sell_price : ℝ
  pool_count : ℕ
  dex_count : ℕ
  spread_brut : ℝ
  spread_net : ℝ
  total_costs : ℝ
  liquidity_usd : ℝ
  volume_24h : ℝ
  confidence_score : ℤ
  mev_risk : String
  profit_estimate_usd : ℝ

/-- `compute_spread_and_metrics(session, token_mint, base_mint, liquidity_usd,
volume_24h, swap_size_usd)` (arbitrage.py lines 405-760), with the fetched and
normalized pool list passed in place of the session.  The `liquidity_usd`
parameter is only a `.get` default for pool fields that are always present
after normalization, hence unused here.  Every `return None` of the source
appears below, in source order. -/
def compute_spread_and_metrics (token_mint base_mint : String)
    (liquidity_usd volume_24h swap_size_usd : ℝ) (fetched : List NPool) :
    Option Opportunity :=
  let pools := filter_pools_by_liquidity fetched 10000
  if pools.length < 2 then none
  else if (dexSet pools).length < 2 then none
  else match chooseBuySell pools with
  | none => none
  | some (buy_pool, sell_pool) =>
    if buy_pool.buy_price ≤ 0 ∨ sell_pool.sell_price ≤ 0 then none
    else
      let spread_brut := spreadBrutOf buy_pool sell_pool
      let price_coherence := calculate_price_coherence (poolPricesDict pools)
      if pools.length < 3 ∧ 0.10 < spread_brut ∧ price_coherence < 0.8 then none
      else if 0.20 < spread_brut then none
      else if buy_pool.buy_price ≠ 0 ∧ buy_pool.sell_price ≠ 0 ∧
          buy_pool.sell_price < buy_pool.buy_price then none
      else if sell_pool.buy_price ≠ 0 ∧ sell_pool.sell_price ≠ 0 ∧
          sell_pool.sell_price < sell_pool.buy_price then none
      else if avgPoolLiq buy_pool sell_pool < 10000 then none
      else if min buy_pool.liquidity_usd sell_pool.liquidity_usd < 5000 then none
      else if (assess_mev_risk token_mint (avgPoolLiq buy_pool sell_pool)
          spread_brut).should_reject then none
      else if spreadNetOf token_mint swap_size_usd pools buy_pool sell_pool <
          MIN_SPREAD_AFTER_FEES then none
      else if price_coherence < 0.5 then none
      else some
        { token := token_mint
          base := base_mint
          buy_dex := buy_pool.dex
          sell_dex := sell_pool.dex
          buy_pool_id := buy_pool.pool_id
          sell_pool_id := sell_pool.pool_id
          buy_pool_url := buy_pool.url
          sell_pool_url := sell_pool.url
          buy_price := buy_pool.buy_price
          sell_price := sell_pool.sell_price
          pool_count := pools.length
          dex_count := (dexSet pools).length
          spread_brut := spread_brut
          spread_net := spreadNetOf token_mint swap_size_usd pools buy_pool sell_pool
          total_costs := totalCostsOf token_mint swap_size_usd pools buy_pool sell_pool
          liquidity_usd := avgPoolLiq buy_pool sell_pool
          volume_24h := volume_24h
          confidence_score := calculate_confidence_score (poolPricesDict pools)
            (avgPoolLiq buy_pool sell_pool) volume_24h spread_brut
          mev_risk := (assess_mev_risk token_mint (avgPoolLiq buy_pool sell_pool)
            spread_brut).risk_level
          profit_estimate_usd :=
            spreadNetOf token_mint swap_size_usd pools buy_pool sell_pool * swap_size_usd }

/-! #### arbitrage.py — pairwise evaluator `compute_pool_arbitrage` -/

/-- The opportunity dict built by `compute_pool_arbitrage` (arbitrage.py
lines 883-905). -/
structure PairOpportunity where
  chain : String
  token : String
  buy_dex : String
  sell_dex : String
  buy_pool_id : String
  sell_pool_id : String
  buy_pool_url : String
  sell_pool_url : String
  buy_price : ℝ
  sell_price : ℝ
  spread_brut : ℝ
  spread_net : ℝ
  total_fees_pct : ℝ

/-- One direction's gross spread: buy on `buyp`, sell on `sellp`
(arbitrage.py lines 861, 866). -/
def scenarioSpreadBrut (buyp sellp : NPool) : ℝ :=
  (sellp.sell_price - buyp.buy_price) / buyp.buy_price

/-- One direction's fee total: both legs' `fee_pct` (arbitrage.py
lines 862, 867). -/
def scenarioFee (buyp sellp : NPool) : ℝ :=
  buyp.fee_pct + sellp.fee_pct

/-- One direction's net spread (arbitrage.py lines 863, 868). -/
def scenarioNet (buyp sellp : NPool) : ℝ :=
  scenarioSpreadBrut buyp sellp - scenarioFee buyp sellp

/-- The record built for the winning direction (arbitrage.py lines 883-905).
`buy_pool.get("chain") or sell_pool.get("chain") or "solana"`: the empty
string models an absent chain key. -/
def mkPairOpportunity (buy_pool sell_pool : NPool) (token : String) : PairOpportunity :=
  { chain :=
      if buy_pool.chain ≠ "" then buy_pool.chain
      else if sell_pool.chain ≠ "" then sell_pool.chain
      else "solana"
    token := token
    buy_dex := buy_pool.dex
    sell_dex := sell_pool.dex
    buy_pool_id := buy_pool.pool_id
    sell_pool_id := sell_pool.pool_id
    buy_pool_url := buy_pool.url
    sell_pool_url := sell_pool.url
    buy_price := buy_pool.buy_price
    sell_price := sell_pool.sell_price
    spread_brut := scenarioSpreadBrut buy_pool sell_pool
    spread_net := scenarioNet buy_pool sell_pool
    total_fees_pct := scenarioFee buy_pool sell_pool }

/-- `compute_pool_arbitrage(pool_a, pool_b, token)` (arbitrage.py
lines 840-916): try both directions, keep the one with the higher net
spread (direction 1 on a tie), `None` if neither is positive.
`float(pool.get("buy_price") or 0)` is the identity on a present numeric
field, and the guard rejects any non-positive price. -/
def compute_pool_arbitrage (pool_a pool_b : NPool) (token : String) :
    Option PairOpportunity :=
  if min (min (min pool_a.buy_price pool_a.sell_price) pool_b.buy_price)
      pool_b.sell_price ≤ 0 then none
  else
    let spread1_net := scenarioNet pool_a pool_b
    let spread2_net := scenarioNet pool_b pool_a
    if spread1_net ≤ 0 ∧ spread2_net ≤ 0 then none
    else if spread2_net ≤ spread1_net then some (mkPairOpportunity pool_a pool_b token)
    else some (mkPairOpportunity pool_b pool_a token)

end Evaluator2

/-! ### Concrete pools used by the witnesses and counterexamples below -/

/-- C9 counterexample, first pool: `token_a = token_b = "S"`, price 2. -/
noncomputable def c9poolA : RawPool :=
  { pool_id := "PX", dex := "raydium", token_a := "S", token_b := "S",
    price := some 2, fee_pct := 0.0025, fee_bps := 25,
    liquidity_usd := 100000, pool_type := "amm" }

/-- C9 counterexample, reverse pool: `token_a = token_b = "S"`, price 1/2. -/
noncomputable def c9poolB : RawPool :=
  { pool_id := "PY", dex := "orca", token_a := "S", token_b := "S",
    price := some (1 / 2), fee_pct := 0.0025, fee_bps := 25,
    liquidity_usd := 100000, pool_type := "amm" }

/-- C10 witness pool: a plain token/base pool with price 2. -/
noncomputable def c10pool : RawPool :=
  { pool_id := "P1", dex := "raydium", token_a := "X", token_b := "B",
    price := some 2, fee_pct := 0.0025, fee_bps := 25,
    liquidity_usd := 100000, pool_type := "amm" }

/-- C10 witness: the normalized form of `c10pool`. -/
noncomputable def c10np : NPool :=
  { pool_id := "P1", dex := "raydium", buy_price := 1 / 2, sell_price := 2,
    fee_pct := 0.0025, fee_bps := 25, liquidity_usd := 100000,
    url := get_pool_url "raydium" "P1", pool_type := "amm", chain := "" }

/-- C9 witness pool, forward orientation. -/
noncomputable def c9wq : RawPool :=
  { pool_id := "W1", dex := "raydium", token_a := "X", token_b := "B",
    price := some 2, fee_pct := 0.0025, fee_bps := 25,
    liquidity_usd := 100000, pool_type := "amm" }

/-- C9 witness pool, reverse orientation with the reciprocal price. -/
noncomputable def c9wr : RawPool :=
  { pool_id := "W2", dex := "orca", token_a := "B", token_b := "X",
    price := some (1 / 2), fee_pct := 0.0025, fee_bps := 25,
    liquidity_usd := 100000, pool_type := "amm" }

/-- C2 counterexample, first pool: buy 1, sell 1.1, no fee. -/
noncomputable def c2poolA : NPool :=
  { pool_id := "p1", dex := "raydium", buy_price := 1, sell_price := 1.1,
    fee_pct := 0, fee_bps := 0, liquidity_usd := 100000, url := "",
    pool_type := "amm", chain := "" }

/-- C2 counterexample, second pool: identical prices, distinct identity. -/
noncomputable def c2poolB : NPool :=
  { pool_id := "p2", dex := "orca", buy_price := 1, sell_price := 1.1,
    fee_pct := 0, fee_bps := 0, liquidity_usd := 100000, url := "",
    pool_type := "amm", chain := "" }

/-- C5 witness, buy-side pool (price 1). -/
noncomputable def c5pool1 : NPool :=
  { pool_id := "q1", dex := "raydium", buy_price := 1, sell_price := 1,
    fee_pct := 0.0025, fee_bps := 25, liquidity_usd := 100000, url := "",
    pool_type := "amm", chain := "" }

/-- C5 witness, sell-side pool (sell price 1.3, a 30% gross spread). -/
noncomputable def c5pool2 : NPool :=
  { pool_id := "q2", dex := "orca", buy_price := 1, sell_price := 1.3,
    fee_pct := 0.0025, fee_bps := 25, liquidity_usd := 100000, url := "",
    pool_type := "amm", chain := "" }

/-- C1 counterexample, buy-side pool (buy price 100, deep liquidity). -/
noncomputable def c1poolB : NPool :=
  { pool_id := "P1", dex := "raydium", buy_price := 100, sell_price := 100,
    fee_pct := 0.0003, fee_bps := 3, liquidity_usd := 1000000, url := "",
    pool_type := "amm", chain := "" }

/-- C1 counterexample, sell-side pool (sell price tuned so that the net
spread equals the threshold exactly). -/
noncomputable def c1poolS : NPool :=
  { pool_id := "P2", dex := "orca", buy_price := 100, sell_price := 100.460225,
    fee_pct := 0.0003, fee_bps := 3, liquidity_usd := 1000000, url := "",
    pool_type := "amm", chain := "" }

/-! ### Theorems: cost model (C3, C4, C8) -/

/-- C4: for every token, liquidity, swap size, fee tier, price coherence and
pool count, `estimate_slippage` lies in the closed interval
`[0.0005, 0.015]`, and for every liquidity and swap size
`estimate_price_impact` lies in `[0.0005, 0.02]`. -/
theorem estimate_slippage_and_impact_bounds :
    (∀ (token_mint : String) (liquidity_usd swap_size_usd : ℝ) (fee_bps : ℤ)
        (price_coherence : ℝ) (pool_count : ℕ),
      estimate_slippage token_mint liquidity_usd swap_size_usd fee_bps
          price_coherence pool_count ∈ Set.Icc (0.0005 : ℝ) 0.015) ∧
    (∀ liquidity_usd swap_size_usd : ℝ,
      estimate_price_impact liquidity_usd swap_size_usd ∈ Set.Icc (0.0005 : ℝ) 0.02) := by
  constructor
  · intro t l s f c n
    rw [Set.mem_Icc, estimate_slippage]
    exact ⟨le_min (le_max_right _ _) (by norm_num), min_le_right _ _⟩
  · intro l s
    rw [Set.mem_Icc, estimate_price_impact]
    exact ⟨le_min (le_max_right _ _) (by norm_num), min_le_right _ _⟩

/-- C3: for a token not on the major-token allow-list, `assess_mev_risk`
rejects with level "high" exactly when (spread above 5% and liquidity below
$50k) or liquidity below $10k, is "medium" without rejecting when (outside the
high case) liquidity is below $50k or spread above 3%, and is "low" otherwise;
a major token always gets low risk, zero buffer and no rejection. -/
theorem assess_mev_risk_cases (token_mint : String) (liquidity_usd spread_brut : ℝ) :
    (token_mint ∉ MAJOR_TOKENS →
      (((assess_mev_risk token_mint liquidity_usd spread_brut).should_reject = true ∧
        (assess_mev_risk token_mint liquidity_usd spread_brut).risk_level = "high") ↔
        ((0.05 < spread_brut ∧ liquidity_usd < 50000) ∨ liquidity_usd < 10000)) ∧
      (¬ ((0.05 < spread_brut ∧ liquidity_usd < 50000) ∨ liquidity_usd < 10000) →
        (liquidity_usd < 50000 ∨ 0.03 < spread_brut) →
        (assess_mev_risk token_mint liquidity_usd spread_brut).risk_level = "medium" ∧
        (assess_mev_risk token_mint liquidity_usd spread_brut).should_reject = false) ∧
      (¬ ((0.05 < spread_brut ∧ liquidity_usd < 50000) ∨ liquidity_usd < 10000) →
        ¬ (liquidity_usd < 50000 ∨ 0.03 < spread_brut) →
        (assess_mev_risk token_mint liquidity_usd spread_brut).risk_level = "low" ∧
        (assess_mev_risk token_mint liquidity_usd spread_brut).should_reject = false)) ∧
    (token_mint ∈ MAJOR_TOKENS →
      (assess_mev_risk token_mint liquidity_usd spread_brut).risk_level = "low" ∧
      (assess_mev_risk token_mint liquidity_usd spread_brut).slippage_buffer = 0 ∧
      (assess_mev_risk token_mint liquidity_usd spread_brut).should_reject = false) := by
  by_cases hM : token_mint ∈ MAJOR_TOKENS
  · refine ⟨fun h => absurd hM h, fun _ => ?_⟩
    simp [assess_mev_risk, hM]
  · refine ⟨fun _ => ⟨?_, ?_, ?_⟩, fun h => absurd h hM⟩
    · simp only [assess_mev_risk, if_neg hM]
      split_ifs with h1 h2 h3 <;> simp_all <;> tauto
    · intro hnh hm
      simp only [assess_mev_risk, if_neg hM]
      split_ifs with h1 h2 h3 <;> simp_all <;> tauto
    · intro hnh hnm
      simp only [assess_mev_risk, if_neg hM]
      split_ifs with h1 h2 h3 <;> simp_all <;> tauto

/-- C8 counterexample: a price map with a single (hence trivially all
identical) non-zero price, on which `calculate_price_coherence` returns 0.0
rather than the claimed 1.0. -/
theorem calculate_price_coherence_singleton :
    calculate_price_coherence [("orca", (5 : ℝ))] = 0 ∧
    calculate_price_coherence [("orca", (5 : ℝ))] ≠ 1 := by
  constructor
  · rw [calculate_price_coherence]
    norm_num
  · rw [calculate_price_coherence]
    norm_num

/-- C8 (amended): `calculate_price_coherence` returns 0.0 for maps of fewer
than 2 prices (even if the single price is non-zero) and for a zero mean;
it returns 1.0 for every map of at least 2 identical non-zero prices; and
otherwise it returns `max(0, 1 - 10 * CV)` capped at 1, with
`CV = stddev / mean`. -/
theorem calculate_price_coherence_spec (prices : List (String × ℝ)) :
    (prices.length < 2 → calculate_price_coherence prices = 0) ∧
    (∀ c : ℝ, c ≠ 0 → 2 ≤ prices.length → (∀ q ∈ prices, q.2 = c) →
      calculate_price_coherence prices = 1) ∧
    (2 ≤ prices.length → (prices.map Prod.snd).sum / (prices.length : ℝ) = 0 →
      calculate_price_coherence prices = 0) ∧
    (2 ≤ prices.length → (prices.map Prod.snd).sum / (prices.length : ℝ) ≠ 0 →
      calculate_price_coherence prices =
        min (max 0 (1 - Real.sqrt (((prices.map Prod.snd).map
              (fun p => (p - (prices.map Prod.snd).sum / (prices.length : ℝ)) ^ (2 : ℕ))).sum
              / (prices.length : ℝ)) /
            ((prices.map Prod.snd).sum / (prices.length : ℝ)) * 10)) 1) := by
  have hlen : (prices.map Prod.snd).length = prices.length := List.length_map _ _
  have hrpow : ∀ x : ℝ, x ^ (0.5 : ℝ) = Real.sqrt x := by
    intro x
    rw [show (0.5 : ℝ) = 1 / 2 by norm_num, ← Real.sqrt_eq_rpow]
  refine ⟨fun h => ?_, fun c hc h2 hall => ?_, fun h2 h0 => ?_, fun h2 h0 => ?_⟩
  · rw [calculate_price_coherence, if_pos h]
  · have hnot : ¬ prices.length < 2 := not_lt.mpr h2
    have hvals : ∀ p ∈ prices.map Prod.snd, p = c := by
      intro p hp
      rcases List.mem_map.mp hp with ⟨q, hq, rfl⟩
      exact hall q hq
    have hsum : (prices.map Prod.snd).sum = (prices.length : ℝ) * c := by
      rw [List.sum_eq_card_nsmul _ c hvals, hlen, nsmul_eq_mul]
    have hn0 : (prices.length : ℝ) ≠ 0 := by
      have : 0 < prices.length := by omega
      positivity
    have havg : (prices.map Prod.snd).sum / ((prices.map Prod.snd).length : ℝ) = c := by
      rw [hsum, hlen]
      exact mul_div_cancel_left₀ c hn0
    rw [calculate_price_coherence, if_neg hnot]
    simp only [havg, if_neg hc]
    have hvar : ((prices.map Prod.snd).map (fun p => (p - c) ^ (2 : ℕ))).sum = 0 := by
      apply List.sum_eq_zero
      intro x hx
      rcases List.mem_map.mp hx with ⟨p, hp, rfl⟩
      rw [hvals p hp]
      ring
    rw [hvar]
    rw [zero_div, hrpow, Real.sqrt_zero, zero_div, zero_mul, sub_zero]
    norm_num
  · have hnot : ¬ prices.length < 2 := not_lt.mpr h2
    rw [calculate_price_coherence, if_neg hnot]
    simp only [hlen]
    rw [if_pos h0]
  · have hnot : ¬ prices.length < 2 := not_lt.mpr h2
    rw [calculate_price_coherence, if_neg hnot]
    simp only [hlen]
    rw [if_neg h0, hrpow]

/-! ### Theorems: normalizer (C9, C10) -/

/-- C9 (amended): for every token `X` distinct from the base token and every
positive price `p`, normalizing a pool `(token_a = X, token_b = base,
price = p)` and normalizing the reverse pool `(token_a = base, token_b = X,
price = 1/p)` yield the same `(buy_price, sell_price)` pair. -/
theorem normalize_price_round_trip (q r : RawPool) (X base : String) (p : ℝ)
    (hXb : X ≠ base) (hp : 0 < p)
    (hqa : q.token_a = X) (hqb : q.token_b = base) (hqp : q.price = some p)
    (hra : r.token_a = base) (hrb : r.token_b = X) (hrp : r.price = some (1 / p)) :
    (normalize_price_for_token q X base).map (fun n => (n.buy_price, n.sell_price)) =
    (normalize_price_for_token r X base).map (fun n => (n.buy_price, n.sell_price)) := by
  have hp0 : p ≠ 0 := ne_of_gt hp
  have hip : 0 < 1 / p := by positivity
  have hguard : ¬ ((1 : ℝ) / p ≤ 0 ∨ p ≤ 0) := by
    push_neg
    exact ⟨hip, hp⟩
  simp only [normalize_price_for_token, hqp, hrp]
  by_cases hX : X = ""
  · rw [if_pos (Or.inr (Or.inl (hqa.trans hX))), if_pos (Or.inr (Or.inr (hrb.trans hX)))]
  by_cases hB : base = ""
  · rw [if_pos (Or.inr (Or.inr (hqb.trans hB))), if_pos (Or.inr (Or.inl (hra.trans hB)))]
  have hq0 : ¬ (p = 0 ∨ q.token_a = "" ∨ q.token_b = "") := by
    push_neg
    exact ⟨hp0, by rw [hqa]; exact hX, by rw [hqb]; exact hB⟩
  have hr0 : ¬ ((1 : ℝ) / p = 0 ∨ r.token_a = "" ∨ r.token_b = "") := by
    push_neg
    exact ⟨ne_of_gt hip, by rw [hra]; exact hB, by rw [hrb]; exact hX⟩
  have hoq : orientedPrices q X base p = some (1 / p, p) := by
    rw [orientedPrices, if_pos ⟨hqa, hqb⟩]
  have hor : orientedPrices r X base (1 / p) = some (1 / p, p) := by
    rw [orientedPrices, if_neg (fun hc => hXb (hra ▸ hc.1).symm), if_pos ⟨hra, hrb⟩,
      one_div_one_div]
  rw [if_neg hq0, if_neg hr0]
  simp only [hoq, hor]
  rw [if_neg hguard, if_neg hguard]
  simp

/-- C9 counterexample: with `X` equal to the base token (here both `"S"`) and
`p = 2`, both pools match the first orientation case, and the two
normalizations give `(1/2, 2)` and `(2, 1/2)`: the round-trip claim as stated
fails when the quantified token coincides with the base token. -/
theorem normalize_price_round_trip_fails_when_token_is_base :
    (normalize_price_for_token c9poolA "S" "S").map
      (fun n => (n.buy_price, n.sell_price)) ≠
    (normalize_price_for_token c9poolB "S" "S").map
      (fun n => (n.buy_price, n.sell_price)) := by
  have haA : c9poolA.token_a = "S" := rfl
  have hbA : c9poolA.token_b = "S" := rfl
  have haB : c9poolB.token_a = "S" := rfl
  have hbB : c9poolB.token_b = "S" := rfl
  have hgA : ¬ ((2 : ℝ) = 0 ∨ c9poolA.token_a = "" ∨ c9poolA.token_b = "") := by
    rw [haA, hbA]
    push_neg
    exact ⟨by norm_num, by decide, by decide⟩
  have hgB : ¬ ((1 / 2 : ℝ) = 0 ∨ c9poolB.token_a = "" ∨ c9poolB.token_b = "") := by
    rw [haB, hbB]
    push_neg
    exact ⟨by norm_num, by decide, by decide⟩
  have hoA : orientedPrices c9poolA "S" "S" 2 = some (1 / 2, 2) := by
    rw [orientedPrices, if_pos ⟨haA, hbA⟩]
  have hoB : orientedPrices c9poolB "S" "S" (1 / 2) = some (1 / (1 / 2), 1 / 2) := by
    rw [orientedPrices, if_pos ⟨haB, hbB⟩]
  have hpA : c9poolA.price = some 2 := rfl
  have hpB : c9poolB.price = some (1 / 2) := rfl
  simp only [normalize_price_for_token, hpA, hpB, hgA, hgB, hoA, hoB,
    if_neg hgA, if_neg hgB]
  rw [if_neg (by norm_num : ¬ ((1 / 2 : ℝ) ≤ 0 ∨ (2 : ℝ) ≤ 0)),
    if_neg (by norm_num : ¬ ((1 / (1 / 2) : ℝ) ≤ 0 ∨ (1 / 2 : ℝ) ≤ 0))]
  simp only [Option.map_some, ne_eq, Option.some.injEq, Prod.mk.injEq]
  norm_num

/-- C10: whenever `normalize_price_for_token` returns a pool, its
`buy_price` and `sell_price` are strictly positive exact reciprocals
(`buy_price * sell_price = 1`), and the pool trips the per-pool
`buy_price > sell_price` guardrail exactly when `sell_price < 1`. -/
theorem normalize_price_positive_reciprocal (pool : RawPool) (token_mint base_mint : String)
    (np : NPool) (h : normalize_price_for_token pool token_mint base_mint = some np) :
    0 < np.buy_price ∧ 0 < np.sell_price ∧ np.buy_price * np.sell_price = 1 ∧
    (np.sell_price < np.buy_price ↔ np.sell_price < 1) := by
  have key : ∀ b s : ℝ, 0 < b → 0 < s → b * s = 1 → (s < b ↔ s < 1) := by
    intro b s hb hs hbs
    constructor
    · intro hlt
      nlinarith
    · intro hlt
      nlinarith
  rcases hprice : pool.price with _ | p
  · simp only [normalize_price_for_token, hprice] at h
    exact Option.noConfusion h
  · simp only [normalize_price_for_token, hprice] at h
    by_cases h1 : p = 0 ∨ pool.token_a = "" ∨ pool.token_b = ""
    · rw [if_pos h1] at h
      exact absurd h (by simp)
    · rw [if_neg h1] at h
      have hp0 : p ≠ 0 := fun hc => h1 (Or.inl hc)
      rcases hbs : orientedPrices pool token_mint base_mint p with _ | ⟨b, s⟩
      · simp only [hbs] at h
        exact Option.noConfusion h
      · simp only [hbs] at h
        by_cases hneg : b ≤ 0 ∨ s ≤ 0
        · rw [if_pos hneg] at h
          exact absurd h (by simp)
        · rw [if_neg hneg] at h
          push_neg at hneg
          obtain ⟨hb, hs⟩ := hneg
          have hrec : b * s = 1 := by
            rw [orientedPrices] at hbs
            split_ifs at hbs with hc1 hc2
            all_goals try exact Option.noConfusion hbs
            all_goals
              obtain ⟨rfl, rfl⟩ := Prod.mk.inj (Option.some.inj hbs)
              field_simp
          obtain rfl := Option.some.inj h
          exact ⟨hb, hs, hrec, key b s hb hs hrec⟩

/-- C10 witness: `normalize_price_for_token` succeeds on `c10pool` and the
invariant holds there. -/
theorem normalize_price_positive_reciprocal_witness :
    0 < c10np.buy_price ∧ 0 < c10np.sell_price ∧
    c10np.buy_price * c10np.sell_price = 1 ∧
    (c10np.sell_price < c10np.buy_price ↔ c10np.sell_price < 1) :=
  normalize_price_positive_reciprocal c10pool "X" "B" c10np (by
    have ha : c10pool.token_a = "X" := rfl
    have hb : c10pool.token_b = "B" := rfl
    have hpr : c10pool.price = some 2 := rfl
    have ho : orientedPrices c10pool "X" "B" 2 = some (1 / 2, 2) := by
      rw [orientedPrices, if_pos ⟨ha, hb⟩]
    have hg : ¬ ((2 : ℝ) = 0 ∨ c10pool.token_a = "" ∨ c10pool.token_b = "") := by
      rw [ha, hb]
      push_neg
      exact ⟨by norm_num, by decide, by decide⟩
    simp only [normalize_price_for_token, hpr, hg, ho, if_neg hg]
    rw [if_neg (by norm_num : ¬ ((1 / 2 : ℝ) ≤ 0 ∨ (2 : ℝ) ≤ 0))]
    rfl)


/-! ### Theorems: pairwise evaluator (C2) -/

/-- C9 witness: the round-trip equality at the concrete pools `c9wq`/`c9wr`
(token `"X"`, base `"B"`, price 2). -/
theorem normalize_price_round_trip_witness :
    (normalize_price_for_token c9wq "X" "B").map (fun n => (n.buy_price, n.sell_price)) =
    (normalize_price_for_token c9wr "X" "B").map (fun n => (n.buy_price, n.sell_price)) :=
  normalize_price_round_trip c9wq c9wr "X" "B" 2 (by decide) (by norm_num)
    rfl rfl rfl rfl rfl rfl

/-- C2 (amended): `compute_pool_arbitrage` is direction-symmetric in outcome:
one direction returns nothing exactly when the other does, both directions
produce the same `spread_net`, and — whenever the two scenario net spreads are
not exactly tied — the same winning (buy, sell) pool pair.  (On an exact tie
the winning pair follows the argument order, see the counterexample.) -/
theorem compute_pool_arbitrage_symmetric (pool_a pool_b : NPool) (token : String) :
    (compute_pool_arbitrage pool_a pool_b token = none ↔
      compute_pool_arbitrage pool_b pool_a token = none) ∧
    (∀ o o', compute_pool_arbitrage pool_a pool_b token = some o →
      compute_pool_arbitrage pool_b pool_a token = some o' →
      o.spread_net = o'.spread_net) ∧
    (scenarioNet pool_a pool_b ≠ scenarioNet pool_b pool_a →
      ∀ o o', compute_pool_arbitrage pool_a pool_b token = some o →
        compute_pool_arbitrage pool_b pool_a token = some o' →
        o.buy_pool_id = o'.buy_pool_id ∧ o.sell_pool_id = o'.sell_pool_id ∧
        o.buy_dex = o'.buy_dex ∧ o.sell_dex = o'.sell_dex) := by
  have hmin : (min (min (min pool_a.buy_price pool_a.sell_price) pool_b.buy_price)
        pool_b.sell_price ≤ 0) ↔
      (min (min (min pool_b.buy_price pool_b.sell_price) pool_a.buy_price)
        pool_a.sell_price ≤ 0) := by
    simp only [min_le_iff]
    tauto
  by_cases h0 : min (min (min pool_a.buy_price pool_a.sell_price) pool_b.buy_price)
      pool_b.sell_price ≤ 0
  · have h0' := hmin.mp h0
    simp only [compute_pool_arbitrage, if_pos h0, if_pos h0']
    refine ⟨by simp, fun o o' ho _ => ?_, fun _ o o' ho _ => ?_⟩ <;> exact Option.noConfusion ho
  · have h0' : ¬ min (min (min pool_b.buy_price pool_b.sell_price) pool_a.buy_price)
        pool_a.sell_price ≤ 0 := fun hc => h0 (hmin.mpr hc)
    simp only [compute_pool_arbitrage, if_neg h0, if_neg h0']
    by_cases hneg : scenarioNet pool_a pool_b ≤ 0 ∧ scenarioNet pool_b pool_a ≤ 0
    · have hneg' : scenarioNet pool_b pool_a ≤ 0 ∧ scenarioNet pool_a pool_b ≤ 0 :=
        ⟨hneg.2, hneg.1⟩
      rw [if_pos hneg, if_pos hneg']
      refine ⟨by simp, fun o o' ho _ => ?_, fun _ o o' ho _ => ?_⟩ <;> exact Option.noConfusion ho
    · have hneg' : ¬ (scenarioNet pool_b pool_a ≤ 0 ∧ scenarioNet pool_a pool_b ≤ 0) :=
        fun hc => hneg ⟨hc.2, hc.1⟩
      rw [if_neg hneg, if_neg hneg']
      rcases lt_trichotomy (scenarioNet pool_a pool_b) (scenarioNet pool_b pool_a)
        with hlt | heq | hgt
      · rw [if_neg (not_le.mpr hlt), if_pos hlt.le]
        refine ⟨by simp, fun o o' ho ho' => ?_, fun _ o o' ho ho' => ?_⟩
        · rw [← Option.some.inj ho, ← Option.some.inj ho']
        · rw [← Option.some.inj ho, ← Option.some.inj ho']
          exact ⟨rfl, rfl, rfl, rfl⟩
      · rw [if_pos (le_of_eq heq.symm), if_pos (le_of_eq heq)]
        refine ⟨by simp, fun o o' ho ho' => ?_, fun hne _ _ _ _ => absurd heq hne⟩
        rw [← Option.some.inj ho, ← Option.some.inj ho']
        exact heq
      · rw [if_pos (le_of_lt hgt), if_neg (not_le.mpr hgt)]
        refine ⟨by simp, fun o o' ho ho' => ?_, fun _ o o' ho ho' => ?_⟩
        · rw [← Option.some.inj ho, ← Option.some.inj ho']
        · rw [← Option.some.inj ho, ← Option.some.inj ho']
          exact ⟨rfl, rfl, rfl, rfl⟩

/-- C2 counterexample: on an exact tie of the two directions' net spreads
(two pools with identical prices and fees), `compute_pool_arbitrage(A, B)`
buys on `A` while `compute_pool_arbitrage(B, A)` buys on `B`: the two calls
do not select the same winning (buy, sell) pool pair. -/
theorem compute_pool_arbitrage_tie_depends_on_order :
    ∃ o o', compute_pool_arbitrage c2poolA c2poolB "T" = some o ∧
      compute_pool_arbitrage c2poolB c2poolA "T" = some o' ∧
      o.buy_pool_id ≠ o'.buy_pool_id := by
  have hg1 : ¬ min (min (min c2poolA.buy_price c2poolA.sell_price) c2poolB.buy_price)
      c2poolB.sell_price ≤ 0 := by
    norm_num [c2poolA, c2poolB]
  have hg1' : ¬ min (min (min c2poolB.buy_price c2poolB.sell_price) c2poolA.buy_price)
      c2poolA.sell_price ≤ 0 := by
    norm_num [c2poolA, c2poolB]
  have hnAB : scenarioNet c2poolA c2poolB = 0.1 := by
    rw [scenarioNet, scenarioSpreadBrut, scenarioFee]
    norm_num [c2poolA, c2poolB]
  have hnBA : scenarioNet c2poolB c2poolA = 0.1 := by
    rw [scenarioNet, scenarioSpreadBrut, scenarioFee]
    norm_num [c2poolA, c2poolB]
  have h1 : compute_pool_arbitrage c2poolA c2poolB "T" =
      some (mkPairOpportunity c2poolA c2poolB "T") := by
    simp only [compute_pool_arbitrage]
    rw [if_neg hg1, if_neg (by rw [hnAB, hnBA]; norm_num),
      if_pos (by rw [hnAB, hnBA])]
  have h2 : compute_pool_arbitrage c2poolB c2poolA "T" =
      some (mkPairOpportunity c2poolB c2poolA "T") := by
    simp only [compute_pool_arbitrage]
    rw [if_neg hg1', if_neg (by rw [hnAB, hnBA]; norm_num),
      if_pos (by rw [hnAB, hnBA])]
  refine ⟨_, _, h1, h2, ?_⟩
  simp [mkPairOpportunity, c2poolA, c2poolB]

/-! ### Evaluation lemmas for the best-pool selection -/

open Classical in
/-- Sorting a two-element list by buy price keeps the order when the first
element's key is not larger. -/
theorem sort_pools_by_buy_price_pair_keep (a b : NPool) (h : a.buy_price ≤ b.buy_price) :
    sort_pools_by_buy_price [a, b] = [a, b] := by
  simp only [sort_pools_by_buy_price, stableSortBy, insertRespecting]
  rw [if_pos h]

open Classical in
/-- Sorting a two-element list by descending sell price swaps the elements
when the second one quotes the strictly higher sell price. -/
theorem sort_pools_by_sell_price_pair_swap (a b : NPool) (h : ¬ b.sell_price ≤ a.sell_price) :
    sort_pools_by_sell_price [a, b] = [b, a] := by
  simp only [sort_pools_by_sell_price, stableSortBy, insertRespecting]
  rw [if_neg h]

/-- The selection of arbitrage.py lines 465-479, read off the two sorted
lists, in the plain case where the two winners are distinct pools. -/
theorem chooseBuySell_of_sorted (pools : List NPool) (bp sp : NPool)
    (restb rests : List NPool)
    (h1 : sort_pools_by_buy_price pools = bp :: restb)
    (h2 : sort_pools_by_sell_price pools = sp :: rests)
    (hne : bp.pool_id ≠ sp.pool_id) :
    chooseBuySell pools = some (bp, sp) := by
  simp only [chooseBuySell, h1, h2]
  rw [if_neg hne]

/-! ### Theorems: deep evaluator (C1, C5) -/

/-- C5: whenever the best-buy/best-sell pair selected from the
liquidity-filtered pools has a gross spread above 20%, the deep evaluator
`compute_spread_and_metrics` returns nothing — unconditionally, whatever the
coherence or the cost model would have said. -/
theorem spread_above_20_pct_always_rejected (token_mint base_mint : String)
    (liquidity_usd volume_24h swap_size_usd : ℝ) (fetched : List NPool)
    (buy_pool sell_pool : NPool)
    (hsel : chooseBuySell (filter_pools_by_liquidity fetched 10000) =
      some (buy_pool, sell_pool))
    (hsp : 0.20 < spreadBrutOf buy_pool sell_pool) :
    compute_spread_and_metrics token_mint base_mint liquidity_usd volume_24h
      swap_size_usd fetched = none := by
  simp only [compute_spread_and_metrics, hsel]
  split_ifs <;> first | rfl | (exfalso; exact absurd hsp (by assumption))

/-- C5 witness: a concrete two-pool set with a 30% selected spread on which
the deep evaluator returns nothing. -/
theorem spread_above_20_pct_always_rejected_witness :
    (0.20 : ℝ) < spreadBrutOf c5pool1 c5pool2 ∧
    compute_spread_and_metrics "TKN" "BASE" 100000 50000 1000 [c5pool1, c5pool2] = none := by
  have hf : filter_pools_by_liquidity [c5pool1, c5pool2] 10000 = [c5pool1, c5pool2] := by
    rw [filter_pools_by_liquidity, List.filter_cons_of_pos, List.filter_cons_of_pos,
      List.filter_nil]
    · exact decide_eq_true (by norm_num [c5pool2])
    · exact decide_eq_true (by norm_num [c5pool1])
  have hsb : sort_pools_by_buy_price [c5pool1, c5pool2] = [c5pool1, c5pool2] :=
    sort_pools_by_buy_price_pair_keep _ _ (by norm_num [c5pool1, c5pool2])
  have hss : sort_pools_by_sell_price [c5pool1, c5pool2] = [c5pool2, c5pool1] :=
    sort_pools_by_sell_price_pair_swap _ _ (by norm_num [c5pool1, c5pool2])
  have hch : chooseBuySell [c5pool1, c5pool2] = some (c5pool1, c5pool2) :=
    chooseBuySell_of_sorted _ _ _ _ _ hsb hss (by decide)
  have hsp : (0.20 : ℝ) < spreadBrutOf c5pool1 c5pool2 := by
    rw [spreadBrutOf]
    norm_num [c5pool1, c5pool2]
  exact ⟨hsp, spread_above_20_pct_always_rejected "TKN" "BASE" 100000 50000 1000
    [c5pool1, c5pool2] c5pool1 c5pool2 (by rw [hf]; exact hch) hsp⟩

set_option maxHeartbeats 2000000 in
/-- C1 (amended): the deep evaluator only publishes an opportunity whose
`spread_net` is at least `MIN_SPREAD_AFTER_FEES` (it can equal the threshold
exactly) and whose MEV assessment did not fire; and whenever the MEV
assessment rejects or the net spread is below the threshold for the selected
pair, it returns nothing. -/
theorem compute_spread_and_metrics_threshold_and_mev (token_mint base_mint : String)
    (liquidity_usd volume_24h swap_size_usd : ℝ) (fetched : List NPool) :
    (∀ o, compute_spread_and_metrics token_mint base_mint liquidity_usd volume_24h
        swap_size_usd fetched = some o →
      MIN_SPREAD_AFTER_FEES ≤ o.spread_net ∧
      (assess_mev_risk token_mint o.liquidity_usd o.spread_brut).should_reject = false) ∧
    (∀ buy_pool sell_pool,
      chooseBuySell (filter_pools_by_liquidity fetched 10000) = some (buy_pool, sell_pool) →
      ((assess_mev_risk token_mint (avgPoolLiq buy_pool sell_pool)
          (spreadBrutOf buy_pool sell_pool)).should_reject = true ∨
        spreadNetOf token_mint swap_size_usd (filter_pools_by_liquidity fetched 10000)
          buy_pool sell_pool < MIN_SPREAD_AFTER_FEES) →
      compute_spread_and_metrics token_mint base_mint liquidity_usd volume_24h
        swap_size_usd fetched = none) := by
  have peel : ∀ (c : Prop) (inst : Decidable c) (x : Option Opportunity) (o : Opportunity),
      (@ite _ c inst none x) = some o → ¬c ∧ x = some o := by
    intro c inst x o hx
    by_cases hcc : c
    · rw [if_pos hcc] at hx
      exact Option.noConfusion hx
    · rw [if_neg hcc] at hx
      exact ⟨hcc, hx⟩
  have build : ∀ (c : Prop) (inst : Decidable c) (x : Option Opportunity),
      (¬c → x = none) → (@ite _ c inst none x) = none := by
    intro c inst x hx
    by_cases hcc : c
    · rw [if_pos hcc]
    · rw [if_neg hcc]
      exact hx hcc
  constructor
  · intro o h
    rcases hc : chooseBuySell (filter_pools_by_liquidity fetched 10000) with _ | ⟨bp, sp⟩
    · rw [compute_spread_and_metrics] at h
      simp only [hc] at h
      split_ifs at h <;> exact Option.noConfusion h
    · rw [compute_spread_and_metrics] at h
      simp only [hc] at h
      obtain ⟨h1, h⟩ := peel _ _ _ _ h
      obtain ⟨h2, h⟩ := peel _ _ _ _ h
      obtain ⟨h3, h⟩ := peel _ _ _ _ h
      obtain ⟨h4, h⟩ := peel _ _ _ _ h
      obtain ⟨h5, h⟩ := peel _ _ _ _ h
      obtain ⟨h6, h⟩ := peel _ _ _ _ h
      obtain ⟨h7, h⟩ := peel _ _ _ _ h
      obtain ⟨h8, h⟩ := peel _ _ _ _ h
      obtain ⟨h9, h⟩ := peel _ _ _ _ h
      obtain ⟨hmev, h⟩ := peel _ _ _ _ h
      obtain ⟨hnet, h⟩ := peel _ _ _ _ h
      obtain ⟨h12, h⟩ := peel _ _ _ _ h
      obtain rfl := Option.some.inj h
      exact ⟨not_lt.mp hnet, Bool.not_eq_true _ ▸ hmev⟩
  · intro bp sp hc hbad
    rw [compute_spread_and_metrics]
    simp only [hc]
    refine build _ _ _ fun _ => ?_
    refine build _ _ _ fun _ => ?_
    refine build _ _ _ fun _ => ?_
    refine build _ _ _ fun _ => ?_
    refine build _ _ _ fun _ => ?_
    refine build _ _ _ fun _ => ?_
    refine build _ _ _ fun _ => ?_
    refine build _ _ _ fun _ => ?_
    refine build _ _ _ fun _ => ?_
    by_cases hmev : (assess_mev_risk token_mint (avgPoolLiq bp sp)
        (spreadBrutOf bp sp)).should_reject = true
    · rw [if_pos hmev]
    · rw [if_neg hmev]
      rcases hbad with hb | hb
      · exact absurd hb hmev
      · rw [if_pos hb]

open Classical in
/-- The coherence of a two-entry price map, in terms of its mean `m` and a
nonnegative standard deviation `sd`. -/
theorem calculate_price_coherence_pair (d1 d2 : String) (p1 p2 m sd : ℝ)
    (hm : (p1 + p2) / 2 = m) (hm0 : m ≠ 0) (hsdnn : 0 ≤ sd)
    (hsd : ((p1 - m) ^ (2 : ℕ) + (p2 - m) ^ (2 : ℕ)) / 2 = sd ^ (2 : ℕ)) :
    calculate_price_coherence [(d1, p1), (d2, p2)] = min (max 0 (1 - sd / m * 10)) 1 := by
  simp only [calculate_price_coherence]
  rw [if_neg (by simp)]
  rw [show List.map Prod.snd [(d1, p1), (d2, p2)] = [p1, p2] from rfl]
  rw [show ([p1, p2] : List ℝ).length = 2 from rfl]
  rw [show ([p1, p2] : List ℝ).sum = p1 + (p2 + 0) from rfl, add_zero]
  rw [Nat.cast_ofNat, hm, if_neg hm0]
  rw [show List.map (fun p => (p - m) ^ (2 : ℕ)) [p1, p2] =
    [(p1 - m) ^ (2 : ℕ), (p2 - m) ^ (2 : ℕ)] from rfl]
  rw [show ([(p1 - m) ^ (2 : ℕ), (p2 - m) ^ (2 : ℕ)] : List ℝ).sum =
    (p1 - m) ^ (2 : ℕ) + ((p2 - m) ^ (2 : ℕ) + 0) from rfl, add_zero]
  rw [hsd]
  rw [show (0.5 : ℝ) = 1 / 2 by norm_num, ← Real.sqrt_eq_rpow, Real.sqrt_sq hsdnn]

set_option maxHeartbeats 2000000 in
/-- C1 counterexample: a two-pool set for a major token (SOL) at the default
swap size 1000, tuned so that the deep evaluator publishes an opportunity
whose `spread_net` equals `MIN_SPREAD_AFTER_FEES` exactly — the net spread is
not below the threshold, but it does not exceed it either, refuting the
claim's strict "exceeds". -/
theorem compute_spread_and_metrics_at_exact_threshold :
    ∃ o, compute_spread_and_metrics "So11111111111111111111111111111111111111112" "BASE" 100000 50000 1000
        [c1poolB, c1poolS] = some o ∧
      o.spread_net = MIN_SPREAD_AFTER_FEES ∧ ¬ MIN_SPREAD_AFTER_FEES < o.spread_net := by
  have hBbuy : c1poolB.buy_price = 100 := rfl
  have hBsell : c1poolB.sell_price = 100 := rfl
  have hBliq : c1poolB.liquidity_usd = 1000000 := rfl
  have hBfee : c1poolB.fee_bps = 3 := rfl
  have hBfp : c1poolB.fee_pct = 0.0003 := rfl
  have hBdex : c1poolB.dex = "raydium" := rfl
  have hSbuy : c1poolS.buy_price = 100 := rfl
  have hSsell : c1poolS.sell_price = 100.460225 := rfl
  have hSliq : c1poolS.liquidity_usd = 1000000 := rfl
  have hSfee : c1poolS.fee_bps = 3 := rfl
  have hSfp : c1poolS.fee_pct = 0.0003 := rfl
  have hSdex : c1poolS.dex = "orca" := rfl
  have hfil : filter_pools_by_liquidity [c1poolB, c1poolS] 10000 = [c1poolB, c1poolS] := by
    rw [filter_pools_by_liquidity, List.filter_cons_of_pos, List.filter_cons_of_pos,
      List.filter_nil]
    · exact decide_eq_true (by rw [hSliq]; norm_num)
    · exact decide_eq_true (by rw [hBliq]; norm_num)
  have hsb : sort_pools_by_buy_price [c1poolB, c1poolS] = [c1poolB, c1poolS] :=
    sort_pools_by_buy_price_pair_keep _ _ (by rw [hBbuy, hSbuy])
  have hss : sort_pools_by_sell_price [c1poolB, c1poolS] = [c1poolS, c1poolB] :=
    sort_pools_by_sell_price_pair_swap _ _ (by rw [hBsell, hSsell]; norm_num)
  have hch : chooseBuySell [c1poolB, c1poolS] = some (c1poolB, c1poolS) :=
    chooseBuySell_of_sorted _ _ _ _ _ hsb hss (by
      rw [show c1poolB.pool_id = "P1" from rfl, show c1poolS.pool_id = "P2" from rfl]
      decide)
  have hdex : dexSet [c1poolB, c1poolS] = ["raydium", "orca"] := by
    rw [dexSet]
    rw [show List.map (fun p => p.dex) [c1poolB, c1poolS] = ["raydium", "orca"] from rfl]
    decide
  have hdict : poolPricesDict [c1poolB, c1poolS] = [("raydium", 100), ("orca", 100)] := by
    simp only [poolPricesDict, List.foldl_cons, List.foldl_nil, hBdex, hBbuy, hSdex, hSbuy]
    rw [if_neg (by norm_num : ¬ (100 : ℝ) = 0)]
    simp
  have hcoh : calculate_price_coherence [(("raydium" : String), (100 : ℝ)), ("orca", 100)] =
      1 := by
    rw [calculate_price_coherence_pair "raydium" "orca" 100 100 100 0 (by norm_num)
      (by norm_num) le_rfl (by norm_num)]
    rw [show (0 : ℝ) / 100 * 10 = 0 by norm_num, sub_zero]
    rw [max_eq_right (by norm_num : (0 : ℝ) ≤ 1), min_eq_left le_rfl]
  have hsmall : (min ((1000 : ℝ) / 1000000) 0.1) ^ (0.7 : ℝ) ≤ 0.04 := by
    rw [min_eq_left (by norm_num : (1000 : ℝ) / 1000000 ≤ 0.1)]
    have h2 : ((1000 : ℝ) / 1000000) ^ (0.7 : ℝ) ≤ ((1000 : ℝ) / 1000000) ^ (0.5 : ℝ) :=
      Real.rpow_le_rpow_of_exponent_ge (by norm_num) (by norm_num) (by norm_num)
    have h3 : ((1000 : ℝ) / 1000000) ^ (0.5 : ℝ) ≤ 0.04 := by
      rw [show (0.5 : ℝ) = 1 / 2 by norm_num, ← Real.sqrt_eq_rpow]
      rw [show (0.04 : ℝ) = Real.sqrt (0.04 ^ (2 : ℕ)) from
        (Real.sqrt_sq (by norm_num)).symm]
      exact Real.sqrt_le_sqrt (by norm_num)
    linarith
  have hsmall0 : 0 ≤ (min ((1000 : ℝ) / 1000000) 0.1) ^ (0.7 : ℝ) :=
    Real.rpow_nonneg (by norm_num [min_def]) _
  have hslip : estimate_slippage "So11111111111111111111111111111111111111112" 1000000 1000 3 1 2 = 0.0005 := by
    simp only [estimate_slippage]
    rw [if_pos (by decide : ("So11111111111111111111111111111111111111112" : String) ∈ MAJOR_TOKENS)]
    rw [if_pos (by norm_num : (1000000 : ℝ) ≤ 1000000)]
    rw [if_pos (by norm_num : (0 : ℝ) < 1000000)]
    rw [if_neg (by norm_num : ¬ (3 : ℤ) = 0),
      if_neg (by norm_num : ¬ (300 : ℤ) ≤ 3),
      if_neg (by norm_num : ¬ (100 : ℤ) ≤ 3)]
    rw [max_eq_right (by norm_num : (0.5 : ℝ) ≤ 2.0 - 1)]
    rw [max_eq_right (by push_cast; norm_num : (1.0 : ℝ) ≤ 2.0 - ((2 : ℕ) : ℝ) * 0.2)]
    rw [max_eq_right (by push_cast; nlinarith [hsmall, hsmall0]),
      min_eq_left (by norm_num : (0.0005 : ℝ) ≤ 0.015)]
  have himp : estimate_price_impact 1000000 1000 = 0.0005 := by
    simp only [estimate_price_impact]
    rw [if_pos (by norm_num : (1000000 : ℝ) ≤ 1000000)]
    rw [show (1000 : ℝ) / 1000 = 1 by norm_num, Real.one_rpow, mul_one]
    rw [max_eq_right (by norm_num : (0.0005 : ℝ) ≤ 0.0005),
      min_eq_left (by norm_num : (0.0005 : ℝ) ≤ 0.02)]
  have hnetf : estimate_network_fee "solana" 1000 = 0.00000225 := by
    rw [estimate_network_fee, if_pos rfl, estimate_solana_network_fee,
      if_neg (by norm_num : ¬ (1000 : ℝ) = 0), SOLANA_TOTAL_FEE_LAMPORTS, SOL_PRICE_USD,
      min_eq_left (by norm_num)]
    norm_num
  have havg : avgPoolLiq c1poolB c1poolS = 1000000 := by
    rw [avgPoolLiq, hBliq, hSliq]
    norm_num
  have hsbr : spreadBrutOf c1poolB c1poolS = 0.00460225 := by
    rw [spreadBrutOf, hSsell, hBbuy]
    norm_num
  have hmevr : assess_mev_risk "So11111111111111111111111111111111111111112" 1000000 0.00460225 =
      { risk_level := "low", slippage_buffer := 0, should_reject := false,
        reason := none } := by
    simp only [assess_mev_risk]
    rw [if_pos (by decide : ("So11111111111111111111111111111111111111112" : String) ∈ MAJOR_TOKENS)]
  have hlen2 : ([c1poolB, c1poolS] : List NPool).length = 2 := rfl
  have hts : totalSlippageOf "So11111111111111111111111111111111111111112" 1000 [c1poolB, c1poolS] c1poolB c1poolS = 0.001 := by
    simp only [totalSlippageOf, hdict, hcoh, hlen2, hBliq, hBfee, hSliq, hSfee,
      havg, hsbr, hmevr, hslip]
    norm_num
  have htot : totalCostsOf "So11111111111111111111111111111111111111112" 1000 [c1poolB, c1poolS] c1poolB c1poolS =
      0.00210225 := by
    simp only [totalCostsOf, hBfp, hSfp, hnetf, hts, havg, himp]
    norm_num
  have hnet : spreadNetOf "So11111111111111111111111111111111111111112" 1000 [c1poolB, c1poolS] c1poolB c1poolS = 0.0025 := by
    rw [spreadNetOf, htot, hsbr]
    norm_num
  have hrej : ¬ (assess_mev_risk "So11111111111111111111111111111111111111112" 1000000 0.00460225).should_reject = true := by
    rw [hmevr]
    simp
  rw [compute_spread_and_metrics]
  simp only [hfil, hch, hdex, hsbr, havg, hnet, hlen2]
  rw [if_neg (by norm_num : ¬ (2 : ℕ) < 2)]
  rw [if_neg (by simp : ¬ (["raydium", "orca"] : List String).length < 2)]
  rw [if_neg (by rw [hBbuy, hSsell]; norm_num :
    ¬ (c1poolB.buy_price ≤ 0 ∨ c1poolS.sell_price ≤ 0))]
  rw [hdict, hcoh]
  rw [if_neg (by norm_num : ¬ ((2 : ℕ) < 3 ∧ (0.10 : ℝ) < 0.00460225 ∧ (1 : ℝ) < 0.8))]
  rw [if_neg (by norm_num : ¬ (0.20 : ℝ) < 0.00460225)]
  rw [if_neg (by rw [hBbuy, hBsell]; norm_num :
    ¬ (c1poolB.buy_price ≠ 0 ∧ c1poolB.sell_price ≠ 0 ∧
      c1poolB.sell_price < c1poolB.buy_price))]
  rw [if_neg (by rw [hSbuy, hSsell]; norm_num :
    ¬ (c1poolS.buy_price ≠ 0 ∧ c1poolS.sell_price ≠ 0 ∧
      c1poolS.sell_price < c1poolS.buy_price))]
  rw [if_neg (by norm_num : ¬ (1000000 : ℝ) < 10000)]
  rw [if_neg (by rw [hBliq, hSliq]; norm_num :
    ¬ c1poolB.liquidity_usd ⊓ c1poolS.liquidity_usd < 5000)]
  rw [if_neg hrej]
  rw [if_neg (by rw [MIN_SPREAD_AFTER_FEES]; norm_num :
    ¬ (0.0025 : ℝ) < MIN_SPREAD_AFTER_FEES)]
  rw [if_neg (by norm_num : ¬ (1 : ℝ) < 0.5)]
  refine ⟨_, rfl, ?_, ?_⟩
  · show (0.0025 : ℝ) = MIN_SPREAD_AFTER_FEES
    rw [MIN_SPREAD_AFTER_FEES]
  · show ¬ MIN_SPREAD_AFTER_FEES < (0.0025 : ℝ)
    rw [MIN_SPREAD_AFTER_FEES]
    norm_num

/-! ### Theorems: anti-spam (C6) and cache (C7) -/

/-- C6: after `record_notification` for `(token, hash)` at time `t0` (starting
from the empty maps), `should_send_notification` for the same hash is `false`
at every instant less than 15 minutes after `t0` and `true` once the 15-minute
opportunity cooldown has elapsed; a different hash for the same token is
blocked at every instant less than 5 minutes after `t0` and allowed once the
5-minute token cooldown has elapsed. -/
theorem anti_spam_cooldowns (token opportunity_hash : String) (t0 : ℚ) :
    (∀ t : ℚ, t - t0 < OPPORTUNITY_COOLDOWN →
      should_send_notification (record_notification emptyAntiSpam token opportunity_hash t0)
        token opportunity_hash t = false) ∧
    (∀ t : ℚ, OPPORTUNITY_COOLDOWN ≤ t - t0 →
      should_send_notification (record_notification emptyAntiSpam token opportunity_hash t0)
        token opportunity_hash t = true) ∧
    (∀ (h' : String) (t : ℚ), h' ≠ opportunity_hash → t - t0 < TOKEN_COOLDOWN →
      should_send_notification (record_notification emptyAntiSpam token opportunity_hash t0)
        token h' t = false) ∧
    (∀ (h' : String) (t : ℚ), h' ≠ opportunity_hash → TOKEN_COOLDOWN ≤ t - t0 →
      should_send_notification (record_notification emptyAntiSpam token opportunity_hash t0)
        token h' t = true) := by
  have hkeep : t0 - 3600 < t0 := by linarith
  refine ⟨fun t ht => ?_, fun t ht => ?_, fun h' t hne ht => ?_, fun h' t hne ht => ?_⟩
  · simp [should_send_notification, record_notification, emptyAntiSpam, purgeOld, hkeep, ht]
  · have h1 : ¬ (t - t0 < OPPORTUNITY_COOLDOWN) := not_lt.mpr ht
    have h2 : ¬ (t - t0 < TOKEN_COOLDOWN) := by
      simp only [OPPORTUNITY_COOLDOWN, TOKEN_COOLDOWN] at *
      intro h; linarith
    simp [should_send_notification, record_notification, emptyAntiSpam, purgeOld, hkeep, h1, h2]
  · simp [should_send_notification, record_notification, emptyAntiSpam, purgeOld, hkeep, hne, ht]
  · have h2 : ¬ (t - t0 < TOKEN_COOLDOWN) := not_lt.mpr ht
    simp [should_send_notification, record_notification, emptyAntiSpam, purgeOld, hkeep, hne, h2]

/-- C7: `_get_dynamic_ttl` maps average liquidity to the fixed TTL tiers
(at least $500k: 15 s; at least $50k: 30 s; otherwise 60 s); a cached entry is
read back as absent exactly when `now - timestamp ≥ ttl`, and reading right
after `_set_cached_data` returns the stored data exactly while the entry's
liquidity-tier TTL has not elapsed. -/
theorem cache_dynamic_ttl_and_expiry :
    (∀ liq : ℚ,
      (500000 ≤ liq → _get_dynamic_ttl liq = 15) ∧
      (50000 ≤ liq → liq < 500000 → _get_dynamic_ttl liq = 30) ∧
      (liq < 50000 → _get_dynamic_ttl liq = 60)) ∧
    (∀ (α : Type) (cache : SmartCache α) (key : String) (entry : CacheEntry α) (t : ℚ),
      cache key = some entry →
      (_get_cached_data cache key t = none ↔ (entry.ttl : ℚ) ≤ t - entry.timestamp)) ∧
    (∀ (α : Type) (cache : SmartCache α) (key : String) (data : List α) (liq t0 t : ℚ),
      _get_cached_data (_set_cached_data cache key data liq t0) key t =
        if t - t0 < ((_get_dynamic_ttl liq : ℤ) : ℚ) then some data else none) := by
  refine ⟨fun liq => ⟨fun h1 => ?_, fun h2 h3 => ?_, fun h4 => ?_⟩,
    fun α cache key entry t hkey => ?_, fun α cache key data liq t0 t => ?_⟩
  · simp [_get_dynamic_ttl, h1]
  · rw [_get_dynamic_ttl, if_neg (by linarith), if_pos h2]
  · rw [_get_dynamic_ttl, if_neg (by linarith), if_neg (by linarith)]
  · simp only [_get_cached_data, hkey]
    split_ifs with hlt
    · simp only [reduceCtorEq, false_iff, not_le]
      linarith
    · simp only [true_iff]
      linarith [not_lt.mp hlt]
  · simp [_get_cached_data, _set_cached_data]

end Abrsol
